import Mathlib

/-!
Verification of the swapchain negotiation logic of `src/vk/swap_chain.rs`
(PupsyEngine). The Rust code is shallowly embedded: `u32` fields are `Nat`
values (the sentinel `u32::max_value()` is the explicit constant `U32_MAX`),
Rust `panic!`/`unwrap`/`expect` failures are modelled as `Option.none`, and
the two fallible platform calls made by `create_swapchain`
(`create_swapchain` on the loader and `get_swapchain_images`) are passed in
as oracle functions.
-/

/-- `u32::max_value()`, the sentinel used by `choose_swapchain_extent`. -/
def U32_MAX : Nat := 2 ^ 32 - 1

/-- `vk::Extent2D`: a width/height pair of `u32` values. -/
structure Extent2D where
  width : Nat
  height : Nat
deriving DecidableEq, Repr

/-- `vk::Format` (an `i32` newtype in ash); carried by its raw value. -/
structure Format where
  raw : Int
deriving DecidableEq, Repr

/-- `vk::Format::B8G8R8A8_SRGB` (raw value 50). -/
def Format.B8G8R8A8_SRGB : Format := ⟨50⟩

/-- `vk::Format::R8G8B8A8_UNORM` (raw value 37), used only in examples. -/
def Format.R8G8B8A8_UNORM : Format := ⟨37⟩

/-- `vk::ColorSpaceKHR` (an `i32` newtype in ash); carried by its raw value. -/
structure ColorSpaceKHR where
  raw : Int
deriving DecidableEq, Repr

/-- `vk::ColorSpaceKHR::SRGB_NONLINEAR` (raw value 0). -/
def ColorSpaceKHR.SRGB_NONLINEAR : ColorSpaceKHR := ⟨0⟩

/-- `vk::PresentModeKHR` (an `i32` newtype in ash); carried by its raw value. -/
structure PresentModeKHR where
  raw : Int
deriving DecidableEq, Repr

/-- `vk::PresentModeKHR::IMMEDIATE` (raw value 0). -/
def PresentModeKHR.IMMEDIATE : PresentModeKHR := ⟨0⟩

/-- `vk::PresentModeKHR::MAILBOX` (raw value 1). -/
def PresentModeKHR.MAILBOX : PresentModeKHR := ⟨1⟩

/-- `vk::PresentModeKHR::FIFO` (raw value 2). -/
def PresentModeKHR.FIFO : PresentModeKHR := ⟨2⟩

/-- `vk::SurfaceFormatKHR`: a (format, color space) pair. -/
structure SurfaceFormatKHR where
  format : Format
  color_space : ColorSpaceKHR
deriving DecidableEq, Repr

/-- The fields of `vk::SurfaceCapabilitiesKHR` read by the code
(`min_image_count`, `max_image_count`, `current_extent`,
`min_image_extent`, `max_image_extent`, `current_transform`). -/
structure SurfaceCapabilitiesKHR where
  min_image_count : Nat
  max_image_count : Nat
  current_extent : Extent2D
  min_image_extent : Extent2D
  max_image_extent : Extent2D
  current_transform : Nat
deriving DecidableEq, Repr

/-- `vk::SharingMode`. -/
inductive SharingMode where
  | EXCLUSIVE
  | CONCURRENT
deriving DecidableEq, Repr

/-- `render_device::QueueFamilyIndices`: two optional `u32` indices. -/
structure QueueFamilyIndices where
  graphics_family : Option Nat
  present_family : Option Nat
deriving DecidableEq, Repr

/-- `SwapChainSupportDetail` (swap_chain.rs lines 29-33). -/
structure SwapChainSupportDetail where
  capabilities : SurfaceCapabilitiesKHR
  formats : List SurfaceFormatKHR
  present_modes : List PresentModeKHR
deriving DecidableEq, Repr

/-- `num::clamp(input, min, max)` from the `num` crate, used by
`choose_swapchain_extent`: `if input < min { min } else if input > max
{ max } else { input }`. -/
def num_clamp (input lo hi : Nat) : Nat :=
  if input < lo then lo else if input > hi then hi else input

/-- The `for` loop of `choose_swapchain_format` (lines 148-153): returns the
first element that is `B8G8R8A8_SRGB` with `SRGB_NONLINEAR`, if any. -/
def format_loop : List SurfaceFormatKHR → Option SurfaceFormatKHR
  | [] => none
  | f :: rest =>
    if f.format = Format.B8G8R8A8_SRGB ∧ f.color_space = ColorSpaceKHR.SRGB_NONLINEAR then
      some f
    else
      format_loop rest

/-- `VkSpawChain::choose_swapchain_format` (lines 144-156). `none` models
the `first().unwrap()` panic on an empty list. -/
def choose_swapchain_format (available_formats : List SurfaceFormatKHR) :
    Option SurfaceFormatKHR :=
  match format_loop available_formats with
  | some f => some f
  | none => available_formats.head?

/-- The `for` loop of `choose_swapchain_present_mode` (lines 162-166):
returns `MAILBOX` if present. -/
def present_mode_loop : List PresentModeKHR → Option PresentModeKHR
  | [] => none
  | m :: rest =>
    if m = PresentModeKHR.MAILBOX then some m else present_mode_loop rest

/-- `VkSpawChain::choose_swapchain_present_mode` (lines 158-169). `none`
models the `first().unwrap()` panic on an empty list. -/
def choose_swapchain_present_mode (present_modes : List PresentModeKHR) :
    Option PresentModeKHR :=
  match present_mode_loop present_modes with
  | some m => some m
  | none => present_modes.head?

/-- `VkSpawChain::choose_swapchain_extent` (lines 171-193). The requested
size comes from `crate::utility::constants::WINDOW_WIDTH` /
`WINDOW_HEIGHT`, a module that is not part of `src/`; the two constants are
therefore passed as explicit parameters. -/
def choose_swapchain_extent (capabilities : SurfaceCapabilitiesKHR)
    (WINDOW_WIDTH WINDOW_HEIGHT : Nat) : Extent2D :=
  if capabilities.current_extent.width ≠ U32_MAX ∨
      capabilities.current_extent.height ≠ U32_MAX then
    capabilities.current_extent
  else
    { width := num_clamp WINDOW_WIDTH capabilities.min_image_extent.width
        capabilities.max_image_extent.width,
      height := num_clamp WINDOW_HEIGHT capabilities.min_image_extent.height
        capabilities.max_image_extent.height }

/-- The image-count computation inlined in `create_swapchain`
(lines 49-55): `min_image_count + 1`, reduced by `min` with
`max_image_count` when the latter is nonzero. The `u32` addition wraps
modulo `2 ^ 32` (release-build semantics; a debug build would panic at
`min_image_count = u32::MAX`), so the sum is taken `% 2 ^ 32`. -/
def choose_image_count (capabilities : SurfaceCapabilitiesKHR) : Nat :=
  let image_count := (capabilities.min_image_count + 1) % 2 ^ 32
  if capabilities.max_image_count > 0 then
    min image_count capabilities.max_image_count
  else
    image_count

/-- The sharing-mode selection inlined in `create_swapchain` (lines 57-69):
the triple `(image_sharing_mode, queue_family_index_count,
queue_family_indices)`. `none` models the `unwrap()` panic reached when the
two families differ and one of them is `None`. -/
def choose_sharing_mode (queue_family : QueueFamilyIndices) :
    Option (SharingMode × Nat × List Nat) :=
  if queue_family.graphics_family ≠ queue_family.present_family then
    match queue_family.graphics_family, queue_family.present_family with
    | some g, some p => some (SharingMode.CONCURRENT, 2, [g, p])
    | _, _ => none
  else
    some (SharingMode.EXCLUSIVE, 0, [])

/-- The fields of `vk::SwapchainCreateInfoKHR` that `create_swapchain`
fills with negotiated data (lines 71-90); the constant fields
(`s_type`, `p_next`, flags, usage, composite alpha, clipped, old
swapchain, array layers) are omitted, and the C pointer/length pair
`p_queue_family_indices`/`queue_family_index_count` is carried as the
index list plus the count. -/
structure SwapchainCreateInfoKHR where
  surface : Nat
  min_image_count : Nat
  image_color_space : ColorSpaceKHR
  image_format : Format
  image_extent : Extent2D
  image_sharing_mode : SharingMode
  queue_family_indices : List Nat
  queue_family_index_count : Nat
  pre_transform : Nat
  present_mode : PresentModeKHR

/-- The two fallible platform calls issued by `create_swapchain`
(lines 92-103), as oracles: `create_swapchain` on the loader returns a
swapchain handle or refuses (`none`, the `expect` panic), and
`get_swapchain_images` returns the image handles or fails (`none`). -/
structure Platform where
  create_swapchain : SwapchainCreateInfoKHR → Option Nat
  get_swapchain_images : Nat → Option (List Nat)

/-- The `VkSpawChain` struct (lines 20-27); the loader handle is omitted
and the opaque swapchain/image handles are carried as `Nat`. -/
structure VkSpawChain where
  swapchain : Nat
  swapchain_images : List Nat
  swapchain_format : Format
  swapchain_extent : Extent2D
deriving DecidableEq, Repr

/-- `VkSpawChain::create_swapchain` (lines 36-112). The
`SwapChainSupportDetail` stands for the result of the (side-effect-free)
`query_swapchain_support` call; `surface_id` is the raw surface handle;
`platform` carries the two fallible platform calls; `WINDOW_WIDTH` /
`WINDOW_HEIGHT` are the global constants read by
`choose_swapchain_extent`. `none` models any panic (`unwrap`/`expect`)
along the way, in source order: format choice, present-mode choice,
sharing-mode unwraps, platform allocation, image retrieval. -/
def create_swapchain (platform : Platform) (surface_id : Nat)
    (swapchain_support : SwapChainSupportDetail)
    (queue_family : QueueFamilyIndices)
    (WINDOW_WIDTH WINDOW_HEIGHT : Nat) : Option VkSpawChain := do
  let surface_format ← choose_swapchain_format swapchain_support.formats
  let present_mode ← choose_swapchain_present_mode swapchain_support.present_modes
  let extent := choose_swapchain_extent swapchain_support.capabilities
    WINDOW_WIDTH WINDOW_HEIGHT
  let image_count := choose_image_count swapchain_support.capabilities
  let (image_sharing_mode, queue_family_index_count, queue_family_indices) ←
    choose_sharing_mode queue_family
  let swapchain_create_info : SwapchainCreateInfoKHR :=
    { surface := surface_id,
      min_image_count := image_count,
      image_color_space := surface_format.color_space,
      image_format := surface_format.format,
      image_extent := extent,
      image_sharing_mode := image_sharing_mode,
      queue_family_indices := queue_family_indices,
      queue_family_index_count := queue_family_index_count,
      pre_transform := swapchain_support.capabilities.current_transform,
      present_mode := present_mode }
  let swapchain ← platform.create_swapchain swapchain_create_info
  let swapchain_images ← platform.get_swapchain_images swapchain
  some { swapchain := swapchain,
         swapchain_images := swapchain_images,
         swapchain_format := surface_format.format,
         swapchain_extent := extent }

/-- Modelled from the spec: the `SwapchainManager` lifecycle states
`Uninitialized → Created → Invalidated → Destroyed` (spec section 4.2).
The source implements only initial creation (spec section 9 flags the
recreation state machine as an extension), so the state machine itself is
taken from the spec's words while creation is the embedded
`create_swapchain`. -/
inductive ManagerState where
  | Uninitialized
  | Created (chain : VkSpawChain)
  | Invalidated (chain : VkSpawChain)
  | Destroyed
deriving DecidableEq, Repr

/-- Modelled from the spec: `SwapchainManager.create` — runs the embedded
`create_swapchain`; on success the manager is `Created` with the new
chain, on failure it is `Destroyed` (spec section 5: on failure the
manager is in `Destroyed`, not a half-built `Created`). -/
def manager_create (platform : Platform) (surface_id : Nat)
    (swapchain_support : SwapChainSupportDetail)
    (queue_family : QueueFamilyIndices) (w h : Nat) : ManagerState :=
  match create_swapchain platform surface_id swapchain_support queue_family w h with
  | some chain => ManagerState.Created chain
  | none => ManagerState.Destroyed

/-- Modelled from the spec: `SwapchainManager.recreate` — valid from
`Created` or `Invalidated`; destroys the existing chain then re-runs
creation, ending `Destroyed` on failure (spec section 4.2). From any
other state the manager is unchanged (`InvalidStateError`). -/
def manager_recreate (st : ManagerState) (platform : Platform)
    (surface_id : Nat) (swapchain_support : SwapChainSupportDetail)
    (queue_family : QueueFamilyIndices) (w h : Nat) : ManagerState :=
  match st with
  | ManagerState.Created _ =>
    manager_create platform surface_id swapchain_support queue_family w h
  | ManagerState.Invalidated _ =>
    manager_create platform surface_id swapchain_support queue_family w h
  | _ => st

/-- Modelled from the spec: `currentImages()` — valid only in `Created`;
`none` models `InvalidStateError`. -/
def currentImages : ManagerState → Option (List Nat)
  | ManagerState.Created chain => some chain.swapchain_images
  | _ => none

/-- The preferred (format, color space) pair of `choose_swapchain_format`. -/
def preferred_format : SurfaceFormatKHR :=
  ⟨Format.B8G8R8A8_SRGB, ColorSpaceKHR.SRGB_NONLINEAR⟩

/-- C1: for every capabilities value whose `current_extent` is the sentinel
(`u32::max_value()` on both width and height), extent selection with
requested width `w` and height `h` (the `WINDOW_WIDTH`/`WINDOW_HEIGHT`
globals) returns the requested size clamped component-wise into
`[min_image_extent, max_image_extent]`. -/
theorem C1_extent_sentinel (capabilities : SurfaceCapabilitiesKHR) (w h : Nat)
    (hw : capabilities.current_extent.width = U32_MAX)
    (hh : capabilities.current_extent.height = U32_MAX) :
    choose_swapchain_extent capabilities w h =
      { width := num_clamp w capabilities.min_image_extent.width
          capabilities.max_image_extent.width,
        height := num_clamp h capabilities.min_image_extent.height
          capabilities.max_image_extent.height } := by
  unfold choose_swapchain_extent
  simp [hw, hh]

/-- C1 witness at a concrete sentinel capabilities value. -/
theorem C1_extent_sentinel_witness :
    choose_swapchain_extent ⟨2, 0, ⟨U32_MAX, U32_MAX⟩, ⟨1, 1⟩, ⟨4096, 4096⟩, 0⟩
      800 600 = ⟨800, 600⟩ := by
  have hcl := C1_extent_sentinel ⟨2, 0, ⟨U32_MAX, U32_MAX⟩, ⟨1, 1⟩, ⟨4096, 4096⟩, 0⟩
    800 600 rfl rfl
  rw [hcl]
  decide

/-- C2: for every capabilities value whose `current_extent` is not the
sentinel (at least one coordinate differs from `u32::max_value()`), extent
selection returns `current_extent` verbatim, for every requested size. -/
theorem C2_extent_fixed (capabilities : SurfaceCapabilitiesKHR) (w h : Nat)
    (hne : capabilities.current_extent.width ≠ U32_MAX ∨
      capabilities.current_extent.height ≠ U32_MAX) :
    choose_swapchain_extent capabilities w h = capabilities.current_extent := by
  unfold choose_swapchain_extent
  rw [if_pos hne]

/-- C2 witness at a concrete non-sentinel capabilities value. -/
theorem C2_extent_fixed_witness :
    choose_swapchain_extent ⟨2, 0, ⟨1024, 768⟩, ⟨1, 1⟩, ⟨4096, 4096⟩, 0⟩
      800 600 = ⟨1024, 768⟩ :=
  C2_extent_fixed ⟨2, 0, ⟨1024, 768⟩, ⟨1, 1⟩, ⟨4096, 4096⟩, 0⟩ 800 600
    (Or.inl (by decide))

/-- C3 counterexample: at `min_image_count = 2`, `max_image_count = 2`
(a positive maximum below `min + 1`), the chosen image count is `2`,
strictly below `min_image_count + 1 = 3`, refuting the claim that the
count is never below `min_image_count + 1` when `max_image_count > 0`. -/
theorem C3_image_count_counterexample :
    0 < SurfaceCapabilitiesKHR.max_image_count
        ⟨2, 2, ⟨800, 600⟩, ⟨1, 1⟩, ⟨4096, 4096⟩, 0⟩ ∧
    choose_image_count ⟨2, 2, ⟨800, 600⟩, ⟨1, 1⟩, ⟨4096, 4096⟩, 0⟩ <
      SurfaceCapabilitiesKHR.min_image_count
        ⟨2, 2, ⟨800, 600⟩, ⟨1, 1⟩, ⟨4096, 4096⟩, 0⟩ + 1 := by
  decide

/-- C3 amended: for capabilities with `min_image_count < u32::MAX` (so
the `u32` addition does not wrap), the chosen image count equals exactly
`min_image_count + 1` when `max_image_count = 0`; when
`max_image_count > 0` it equals `min (min_image_count + 1)
max_image_count` — so it never exceeds `max_image_count`, and it is
`min_image_count + 1` (hence not below it) whenever `min_image_count + 1 ≤
max_image_count`, but drops to `max_image_count` when the maximum is
below `min_image_count + 1`. At `min_image_count = u32::MAX` the `u32`
addition wraps and the chosen count is `0`. -/
theorem C3_image_count_amended (capabilities : SurfaceCapabilitiesKHR) :
    (capabilities.min_image_count < U32_MAX →
      (capabilities.max_image_count = 0 →
        choose_image_count capabilities = capabilities.min_image_count + 1) ∧
      (0 < capabilities.max_image_count →
        choose_image_count capabilities =
          min (capabilities.min_image_count + 1) capabilities.max_image_count ∧
        choose_image_count capabilities ≤ capabilities.max_image_count ∧
        (capabilities.min_image_count + 1 ≤ capabilities.max_image_count →
          choose_image_count capabilities = capabilities.min_image_count + 1))) ∧
    (capabilities.min_image_count = U32_MAX →
      choose_image_count capabilities = 0) := by
  have h2 : (2 : Nat) ^ 32 = 4294967296 := by norm_num
  constructor
  · intro hu
    have hmod : (capabilities.min_image_count + 1) % 2 ^ 32 =
        capabilities.min_image_count + 1 := by
      apply Nat.mod_eq_of_lt
      unfold U32_MAX at hu
      omega
    unfold choose_image_count
    rw [hmod]
    constructor
    · intro hz
      simp [hz]
    · intro hpos
      rw [if_pos hpos]
      exact ⟨rfl, Nat.min_le_right _ _, fun hle => Nat.min_eq_left hle⟩
  · intro he
    have hmod0 : (capabilities.min_image_count + 1) % 2 ^ 32 = 0 := by
      rw [he]
      decide
    unfold choose_image_count
    rw [hmod0]
    rcases Nat.eq_zero_or_pos capabilities.max_image_count with hz | hpos
    · simp [hz]
    · rw [if_pos hpos]
      simp

/-- C3 witness: the amended statement at concrete capabilities (`max = 0`
gives `2 + 1 = 3`; `max = 2` stays within the maximum; at
`min = u32::MAX` the wrapped count is `0`). -/
theorem C3_image_count_amended_witness :
    choose_image_count ⟨2, 0, ⟨800, 600⟩, ⟨1, 1⟩, ⟨4096, 4096⟩, 0⟩ = 3 ∧
    choose_image_count ⟨2, 2, ⟨800, 600⟩, ⟨1, 1⟩, ⟨4096, 4096⟩, 0⟩ ≤ 2 ∧
    choose_image_count ⟨U32_MAX, 0, ⟨800, 600⟩, ⟨1, 1⟩, ⟨4096, 4096⟩, 0⟩ = 0 :=
  ⟨((C3_image_count_amended ⟨2, 0, ⟨800, 600⟩, ⟨1, 1⟩, ⟨4096, 4096⟩, 0⟩).1
      (by decide)).1 rfl,
   (((C3_image_count_amended ⟨2, 2, ⟨800, 600⟩, ⟨1, 1⟩, ⟨4096, 4096⟩, 0⟩).1
      (by decide)).2 (by decide)).2.1,
   (C3_image_count_amended ⟨U32_MAX, 0, ⟨800, 600⟩, ⟨1, 1⟩, ⟨4096, 4096⟩, 0⟩).2
      rfl⟩

/-- C7: on an empty options list, format selection and present-mode
selection each fail (the `first().unwrap()` panic, the code's synchronous
signal for the spec's `NegotiationError`): neither returns a value. -/
theorem C7_empty_options :
    choose_swapchain_format [] = none ∧
    choose_swapchain_present_mode [] = none :=
  ⟨rfl, rfl⟩

/-- A surface format satisfies the loop's condition exactly when it is the
preferred pair (the struct has no other fields). -/
theorem format_cond_iff (f : SurfaceFormatKHR) :
    (f.format = Format.B8G8R8A8_SRGB ∧
      f.color_space = ColorSpaceKHR.SRGB_NONLINEAR) ↔ f = preferred_format := by
  cases f
  simp [preferred_format]

/-- If the preferred pair occurs in the list, the loop returns it. -/
theorem format_loop_eq_some (fs : List SurfaceFormatKHR)
    (h : preferred_format ∈ fs) : format_loop fs = some preferred_format := by
  induction fs with
  | nil => cases h
  | cons f rest ih =>
    by_cases hc : f.format = Format.B8G8R8A8_SRGB ∧
        f.color_space = ColorSpaceKHR.SRGB_NONLINEAR
    · rw [format_loop, if_pos hc, (format_cond_iff f).mp hc]
    · have hne : preferred_format ≠ f := fun he =>
        hc ((format_cond_iff f).mpr he.symm)
      rcases List.mem_cons.mp h with h1 | h2
      · exact absurd h1 hne
      · rw [format_loop, if_neg hc]
        exact ih h2

/-- If the preferred pair does not occur in the list, the loop falls
through. -/
theorem format_loop_eq_none (fs : List SurfaceFormatKHR)
    (h : preferred_format ∉ fs) : format_loop fs = none := by
  induction fs with
  | nil => rfl
  | cons f rest ih =>
    by_cases hc : f.format = Format.B8G8R8A8_SRGB ∧
        f.color_space = ColorSpaceKHR.SRGB_NONLINEAR
    · exact absurd ((format_cond_iff f).mp hc ▸ List.mem_cons_self f rest) h
    · rw [format_loop, if_neg hc]
      exact ih fun h2 => h (List.mem_cons_of_mem f h2)

/-- C4: on a non-empty format list, selection returns the preferred
(BGRA8-SRGB, SRGB-nonlinear) pair whenever the list contains it, at any
position, and otherwise returns the list's first element unchanged. -/
theorem C4_choose_format (fs : List SurfaceFormatKHR) (hne : fs ≠ []) :
    (preferred_format ∈ fs →
      choose_swapchain_format fs = some preferred_format) ∧
    (preferred_format ∉ fs →
      choose_swapchain_format fs = some (fs.head hne)) := by
  constructor
  · intro hmem
    unfold choose_swapchain_format
    rw [format_loop_eq_some fs hmem]
  · intro hnm
    unfold choose_swapchain_format
    rw [format_loop_eq_none fs hnm, List.head?_eq_head]

/-- C4 witness: the preferred pair is found in second position, and a
list lacking it yields its first element. -/
theorem C4_choose_format_witness :
    choose_swapchain_format
        [⟨Format.R8G8B8A8_UNORM, ColorSpaceKHR.SRGB_NONLINEAR⟩,
         ⟨Format.B8G8R8A8_SRGB, ColorSpaceKHR.SRGB_NONLINEAR⟩] =
      some ⟨Format.B8G8R8A8_SRGB, ColorSpaceKHR.SRGB_NONLINEAR⟩ ∧
    choose_swapchain_format [⟨Format.R8G8B8A8_UNORM, ColorSpaceKHR.SRGB_NONLINEAR⟩] =
      some ⟨Format.R8G8B8A8_UNORM, ColorSpaceKHR.SRGB_NONLINEAR⟩ :=
  ⟨(C4_choose_format _ (by decide)).1 (by decide),
   (C4_choose_format _ (by decide)).2 (by decide)⟩

/-- If `MAILBOX` occurs in the list, the loop returns it. -/
theorem present_mode_loop_eq_some (ms : List PresentModeKHR)
    (h : PresentModeKHR.MAILBOX ∈ ms) :
    present_mode_loop ms = some PresentModeKHR.MAILBOX := by
  induction ms with
  | nil => cases h
  | cons m rest ih =>
    by_cases hc : m = PresentModeKHR.MAILBOX
    · rw [present_mode_loop, if_pos hc, hc]
    · rcases List.mem_cons.mp h with h1 | h2
      · exact absurd h1.symm hc
      · rw [present_mode_loop, if_neg hc]
        exact ih h2

/-- If `MAILBOX` does not occur in the list, the loop falls through. -/
theorem present_mode_loop_eq_none (ms : List PresentModeKHR)
    (h : PresentModeKHR.MAILBOX ∉ ms) : present_mode_loop ms = none := by
  induction ms with
  | nil => rfl
  | cons m rest ih =>
    by_cases hc : m = PresentModeKHR.MAILBOX
    · exact absurd (hc ▸ List.mem_cons_self m rest) h
    · rw [present_mode_loop, if_neg hc]
      exact ih fun h2 => h (List.mem_cons_of_mem m h2)

/-- C5: on a non-empty present-mode list, selection returns `MAILBOX`
whenever the list contains it, at any position, and otherwise returns the
list's first element unchanged. -/
theorem C5_choose_present_mode (ms : List PresentModeKHR) (hne : ms ≠ []) :
    (PresentModeKHR.MAILBOX ∈ ms →
      choose_swapchain_present_mode ms = some PresentModeKHR.MAILBOX) ∧
    (PresentModeKHR.MAILBOX ∉ ms →
      choose_swapchain_present_mode ms = some (ms.head hne)) := by
  constructor
  · intro hmem
    unfold choose_swapchain_present_mode
    rw [present_mode_loop_eq_some ms hmem]
  · intro hnm
    unfold choose_swapchain_present_mode
    rw [present_mode_loop_eq_none ms hnm, List.head?_eq_head]

/-- C5 witness: `MAILBOX` is found in second position, and a list lacking
it yields its first element. -/
theorem C5_choose_present_mode_witness :
    choose_swapchain_present_mode [PresentModeKHR.FIFO, PresentModeKHR.MAILBOX] =
      some PresentModeKHR.MAILBOX ∧
    choose_swapchain_present_mode [PresentModeKHR.FIFO, PresentModeKHR.IMMEDIATE] =
      some PresentModeKHR.FIFO :=
  ⟨(C5_choose_present_mode _ (by decide)).1 (by decide),
   (C5_choose_present_mode _ (by decide)).2 (by decide)⟩

/-- C6 counterexample: with `graphics_family = Some 0` and
`present_family = None` the two Option values differ, yet the selection
does not return concurrent mode with two indices — it panics at the
`unwrap` (modelled `none`), refuting the claim for arbitrary
`QueueFamilyIndices` inputs. -/
theorem C6_sharing_mode_counterexample :
    QueueFamilyIndices.graphics_family ⟨some 0, none⟩ ≠
      QueueFamilyIndices.present_family ⟨some 0, none⟩ ∧
    choose_sharing_mode ⟨some 0, none⟩ = none := by
  decide

/-- C6 amended: for every `QueueFamilyIndices` whose two indices are both
set, the selection returns concurrent mode with exactly the index list
`[graphics, present]` (and count 2) iff the two indices differ, and
returns exclusive mode with an empty index list (count 0) when they are
equal. -/
theorem C6_sharing_mode_amended (queue_family : QueueFamilyIndices) (g p : Nat)
    (hg : queue_family.graphics_family = some g)
    (hp : queue_family.present_family = some p) :
    (choose_sharing_mode queue_family =
        some (SharingMode.CONCURRENT, 2, [g, p]) ↔ g ≠ p) ∧
    (g = p →
      choose_sharing_mode queue_family =
        some (SharingMode.EXCLUSIVE, 0, [])) := by
  unfold choose_sharing_mode
  rw [hg, hp]
  by_cases hgp : g = p
  · subst hgp
    simp
  · have hne : (some g : Option Nat) ≠ some p := by
      simpa using hgp
    rw [if_pos hne]
    simp [hgp]

/-- C6 witness: distinct set indices give concurrent sharing over
`[0, 1]`. -/
theorem C6_sharing_mode_amended_witness :
    choose_sharing_mode ⟨some 0, some 1⟩ =
      some (SharingMode.CONCURRENT, 2, [0, 1]) :=
  (C6_sharing_mode_amended ⟨some 0, some 1⟩ 0 1 rfl rfl).1.mpr (by decide)

/-- C10: whenever the two Option-valued family indices are equal —
including both being `None` — the sharing-mode selection takes the
exclusive branch, returning exclusive mode with count 0 and an empty
index list, and in particular cannot reach (or fail at) the `unwrap`
calls, which sit only in the branch where the families differ. -/
theorem C10_sharing_mode_equal_no_unwrap (queue_family : QueueFamilyIndices)
    (h : queue_family.graphics_family = queue_family.present_family) :
    choose_sharing_mode queue_family =
      some (SharingMode.EXCLUSIVE, 0, []) ∧
    choose_sharing_mode queue_family ≠ none := by
  unfold choose_sharing_mode
  simp [h]

/-- C10 witness: both families `None` (equal) selects exclusive sharing
without failing. -/
theorem C10_sharing_mode_equal_no_unwrap_witness :
    choose_sharing_mode ⟨none, none⟩ =
      some (SharingMode.EXCLUSIVE, 0, []) :=
  (C10_sharing_mode_equal_no_unwrap ⟨none, none⟩ rfl).1

/-- C8 counterexample: with both family indices unset (`None`), equal as
Option values, `create_swapchain` signals no error at all: with a
non-empty format list, a non-empty present-mode list and a willing
platform it completes successfully with exclusive sharing, refuting the
claim that an unset index makes `create` signal `PreconditionError`. -/
theorem C8_precondition_counterexample :
    create_swapchain ⟨fun _ => some 7, fun _ => some [1, 2, 3]⟩ 5
      ⟨⟨2, 0, ⟨U32_MAX, U32_MAX⟩, ⟨1, 1⟩, ⟨4096, 4096⟩, 0⟩,
        [⟨Format.B8G8R8A8_SRGB, ColorSpaceKHR.SRGB_NONLINEAR⟩],
        [PresentModeKHR.FIFO]⟩
      ⟨none, none⟩ 800 600 =
    some ⟨7, [1, 2, 3], Format.B8G8R8A8_SRGB, ⟨800, 600⟩⟩ := by
  rfl

/-- C8 amended: `create_swapchain` fails (the `unwrap` panic inside the
sharing-mode selection, modelled `none`) when the two Option-valued
family indices differ and one of them is unset; when both are unset they
are equal, and `create` proceeds without signalling any
precondition error (see the counterexample). -/
theorem C8_precondition_amended (platform : Platform) (surface_id : Nat)
    (support : SwapChainSupportDetail) (queue_family : QueueFamilyIndices)
    (w h : Nat)
    (hne : queue_family.graphics_family ≠ queue_family.present_family)
    (hnone : queue_family.graphics_family = none ∨
      queue_family.present_family = none) :
    create_swapchain platform surface_id support queue_family w h = none := by
  have hsh : choose_sharing_mode queue_family = none := by
    unfold choose_sharing_mode
    rw [if_pos hne]
    rcases hnone with h1 | h1
    · rw [h1]
    · rw [h1]
      cases queue_family.graphics_family <;> rfl
  unfold create_swapchain
  cases hf : choose_swapchain_format support.formats with
  | none => rfl
  | some sf =>
    cases hm : choose_swapchain_present_mode support.present_modes with
    | none => simp [Option.bind]
    | some pm => simp [Option.bind, hsh]

/-- C8 amended witness: a set graphics family and an unset present family
make `create_swapchain` fail even with benign inputs. -/
theorem C8_precondition_amended_witness :
    create_swapchain ⟨fun _ => some 7, fun _ => some [1, 2, 3]⟩ 5
      ⟨⟨2, 0, ⟨U32_MAX, U32_MAX⟩, ⟨1, 1⟩, ⟨4096, 4096⟩, 0⟩,
        [⟨Format.B8G8R8A8_SRGB, ColorSpaceKHR.SRGB_NONLINEAR⟩],
        [PresentModeKHR.FIFO]⟩
      ⟨some 0, none⟩ 800 600 = none :=
  C8_precondition_amended _ 5 _ ⟨some 0, none⟩ 800 600 (by decide) (Or.inr rfl)

/-- C9: creation and recreation fail atomically: whenever the platform
refuses the chain allocation, or image-handle retrieval fails, the
manager ends in `Destroyed` (never a half-built `Created`), no images are
reachable through `currentImages()`, and `recreate` from `Created` or
`Invalidated` likewise ends in `Destroyed`. -/
theorem C9_create_fails_atomically (platform : Platform) (surface_id : Nat)
    (support : SwapChainSupportDetail) (queue_family : QueueFamilyIndices)
    (w h : Nat)
    (hfail : (∀ info, platform.create_swapchain info = none) ∨
      (∀ s, platform.get_swapchain_images s = none)) :
    manager_create platform surface_id support queue_family w h =
      ManagerState.Destroyed ∧
    currentImages
      (manager_create platform surface_id support queue_family w h) = none ∧
    ∀ chain : VkSpawChain,
      manager_recreate (ManagerState.Created chain) platform surface_id
        support queue_family w h = ManagerState.Destroyed ∧
      manager_recreate (ManagerState.Invalidated chain) platform surface_id
        support queue_family w h = ManagerState.Destroyed := by
  have hc : create_swapchain platform surface_id support queue_family w h
      = none := by
    unfold create_swapchain
    cases hf : choose_swapchain_format support.formats with
    | none => rfl
    | some sf =>
      cases hm : choose_swapchain_present_mode support.present_modes with
      | none => simp [Option.bind]
      | some pm =>
        cases hs : choose_sharing_mode queue_family with
        | none => simp [Option.bind, hs]
        | some triple =>
          obtain ⟨mode, count, indices⟩ := triple
          rcases hfail with hp | hp
          · simp [Option.bind, hs, hp]
          · simp [Option.bind, hs, hp]
            split <;> rfl
  refine ⟨?_, ?_, ?_⟩
  · unfold manager_create
    rw [hc]
  · unfold manager_create
    rw [hc]
    rfl
  · intro chain
    constructor
    · unfold manager_recreate manager_create
      rw [hc]
    · unfold manager_recreate manager_create
      rw [hc]

/-- C9 witness: a platform that refuses every allocation leaves the
manager `Destroyed` after `create`. -/
theorem C9_create_fails_atomically_witness :
    manager_create ⟨fun _ => none, fun _ => some []⟩ 5
      ⟨⟨2, 0, ⟨U32_MAX, U32_MAX⟩, ⟨1, 1⟩, ⟨4096, 4096⟩, 0⟩,
        [⟨Format.B8G8R8A8_SRGB, ColorSpaceKHR.SRGB_NONLINEAR⟩],
        [PresentModeKHR.FIFO]⟩
      ⟨some 0, some 0⟩ 800 600 = ManagerState.Destroyed :=
  (C9_create_fails_atomically ⟨fun _ => none, fun _ => some []⟩ 5 _
    ⟨some 0, some 0⟩ 800 600 (Or.inl fun _ => rfl)).1
